import Mathlib

/-!
Shallow embedding of the `gcm` package (sender.go, message.go, response types)
and proofs about its retry orchestration.  Go slices that may be nil are
modelled as `Option (List _)`; the HTTP transport and the random source are
modelled as oracles passed to the embedded functions; machine integers are
`Int`/`Nat` (no value in this code approaches an overflow boundary).
-/

namespace Gcm

/-- The status of one processed message (response part of the repository). -/
structure Result where
  MessageID : String
  RegistrationID : String
  Error : String
  deriving DecidableEq

/-- The GCM server response to a multicast send. -/
structure Response where
  MulticastID : Int
  Success : Nat
  Failure : Nat
  CanonicalIDs : Nat
  Results : List Result
  deriving DecidableEq

/-- A message sent to the GCM server (message.go).  `RegistrationIDs` is an
`Option` so that a Go nil slice (`none`) is distinguished from an empty
slice (`some []`). -/
structure Message where
  RegistrationIDs : Option (List String)
  CollapseKey : String
  Data : String
  DelayWhileIdle : Bool
  TimeToLive : Int
  RestrictedPackageName : String
  DryRun : Bool
  deriving DecidableEq

/-- Constant from sender.go: initial delay (ms) before first retry. -/
def backoffInitialDelay : Nat := 1000

/-- Constant from sender.go: maximum delay (ms) before a retry. -/
def maxBackoffDelay : Nat := 1024000

/-- Constant from sender.go: percentage jitter used when retrying. -/
def jitterPercentage : Nat := 50

/-- Constant from sender.go: the GCM error string for transient unavailability. -/
def ResponseErrorUnavailable : String := "Unavailable"

/-- Custom error type from sender.go carrying a GCM http status code. -/
structure HTTPError where
  StatusCode : Int
  Err : String
  RetryAfter : Int
  deriving DecidableEq

/-- The `Error()` method of `HTTPError` (its `fmt.Sprintf` rendering). -/
def HTTPError.errorString (e : HTTPError) : String :=
  toString e.StatusCode ++ " error: " ++ e.Err ++ "\nretry-after: " ++ toString e.RetryAfter

/-- `&HTTPError\x7bErr: err\x7d` applied to an inner `HTTPError`: the wrapping done by
`Send` when it propagates an error from `SendNoRetry`. -/
def wrapHTTPError (e : HTTPError) : HTTPError :=
  { StatusCode := 0, Err := e.errorString, RetryAfter := 0 }

/-- checkMessage from sender.go: returns the error message for an ill-formed
message, `none` if the message is well-formed. -/
def checkMessage : Option Message → Option String
  | none => some "the message must not be nil"
  | some m =>
    match m.RegistrationIDs with
    | none => some "the message\x27s RegistrationIDs field must not be nil"
    | some ids =>
      if ids.length = 0 then
        some "the message must specify at least one registration ID"
      else if ids.length > 1000 then
        some "the message may specify at most 1000 registration IDs"
      else if m.TimeToLive < 0 ∨ 2419200 < m.TimeToLive then
        some ("the message\x27s TimeToLive field must be an integer " ++
          "between 0 and 2419200 (4 weeks)")
      else
        none

/-- The registration id slice of a possibly-nil message, read as a list. -/
def msgRegIDs : Option Message → List String
  | none => []
  | some m => m.RegistrationIDs.getD []

/-- The `allResults` map of `Send` (`map[string]Result`), as a lookup function. -/
abbrev Ledger := String → Option Result

/-- The freshly `make`d empty `allResults` map. -/
def emptyLedger : Ledger := fun _ => none

/-- `allResults[regID] = result`: pointwise map update. -/
def setResult (acc : Ledger) (g : String) (r : Result) : Ledger :=
  fun x => if x = g then some r else acc x

/-- updateStatus from sender.go.  It walks `resp.Results` by index `i`,
records `Results[i]` under `msg.RegistrationIDs[i]` in the map, and collects
into `unsentRegIDs` every id whose result error is exactly "Unavailable".
The Go code indexes `msg.RegistrationIDs[i]` for every `i < len(resp.Results)`,
so a results list longer than the id list panics: that case is `none`.
On success it returns the updated map and `unsentRegIDs` (the Go function then
assigns `msg.RegistrationIDs = unsentRegIDs` and returns its length; the
caller `sendLoop` below performs that assignment). -/
def updateStatus : List String → List Result → Ledger → Option (Ledger × List String)
  | _, [], acc => some (acc, [])
  | [], _ :: _, _ => none
  | g :: gs, r :: rs, acc =>
    match updateStatus gs rs (setResult acc g r) with
    | none => none
    | some (acc2, unsent) =>
      some (acc2, if r.Error == "Unavailable" then g :: unsent else unsent)

/-- The most recent entry recorded for a key in a sequence of map writes
(later writes in the list win). -/
def lookupLast : List (String × Result) → String → Option Result
  | [], _ => none
  | p :: t, g =>
    match lookupLast t g with
    | some r => some r
    | none => if g = p.1 then some p.2 else none

/-- The ids selected for the next retry round out of a round's
(id, result) pairs: exactly those whose result error is "Unavailable". -/
def unsentOf (pairs : List (String × Result)) : List String :=
  (pairs.filter (fun p => p.2.Error == "Unavailable")).map Prod.fst

/-- calculateSleep from sender.go, with the value drawn by `rand.Intn n`
(a uniform integer in `[0, n)`) modelled by clamping an oracle draw `r`
into `[0, n)` via `r % n`. -/
def calculateSleep (backoff r : Nat) : Nat :=
  backoff * (100 - jitterPercentage) / 100 + r % (2 * backoff * jitterPercentage / 100)

/-- One advance of the backoff value: `backoff = min(2*backoff, maxBackoffDelay)`. -/
def backoffAdvance (b : Nat) : Nat := min (2 * b) maxBackoffDelay

/-- The backoff value used for the sleep of retry round `k` (round 0 uses
`backoffInitialDelay`; the value is advanced once after each round). -/
def backoffIter : Nat → Nat
  | 0 => backoffInitialDelay
  | k + 1 => backoffAdvance (backoffIter k)

/-- The zero value of the Go `Result` struct: what `allResults[regIDs[i]]`
yields for an id that was never recorded in the map. -/
def zeroResult : Result := ⟨"", "", ""⟩

/-- The counting loop of `Send` over the final results (sender.go lines
205-217): accumulates the success, failure and canonicalIDs counters. -/
def tallyLoop : List Result → Nat → Nat → Nat → Nat × Nat × Nat
  | [], s, f, c => (s, f, c)
  | r :: rs, s, f, c =>
    if r.MessageID = "" then
      tallyLoop rs s (f + 1) c
    else
      tallyLoop rs (s + 1) f (if r.RegistrationID = "" then c else c + 1)

/-- The final aggregation of `Send` (sender.go lines 203-226): walk the
original ids, look each up in `allResults` (the zero `Result` when absent),
tally the counters, and take the most recent response's multicast id. -/
def buildFinal (origIDs : List String) (acc : Ledger) (lastResp : Response) : Response :=
  let finalResults := origIDs.map (fun g => (acc g).getD zeroResult)
  let t := tallyLoop finalResults 0 0 0
  ⟨lastResp.MulticastID, t.1, t.2.1, t.2.2, finalResults⟩

/-- The HTTP transport as observed by `Send` through `SendNoRetry`: given the
index of the call and the registration ids sent, it yields `none` when
`http.Client.Do` failed leaving a nil response (in Go that path panics inside
`SendNoRetry`, see `SendNoRetryFine` below), `some (.error e)` when
`SendNoRetry` returns an error (non-200 status or body decode failure), and
`some (.ok resp)` for a decoded 200 response. -/
abbrev Transport := Nat → List String → Option (Except HTTPError Response)

/-- SendNoRetry from sender.go at the granularity `Send` observes: the sender
check (`checkSender`, here a nonempty API key) and `checkMessage` run before
any transport activity; only then is the HTTP request built and issued.
Returns the outcome (`none` = panic) and the number of transport calls
made (0 or 1). -/
def SendNoRetryRun (apiKey : String) (transport : Transport) (callIdx : Nat)
    (msg : Option Message) : Option (Except HTTPError Response) × Nat :=
  if apiKey = "" then
    (some (Except.error ⟨0, "the sender\x27s API key must not be empty", 0⟩), 0)
  else
    match checkMessage msg with
    | some e => (some (Except.error ⟨0, e, 0⟩), 0)
    | none => (transport callIdx (msgRegIDs msg), 1)

deriving instance DecidableEq for Except

/-- The observable outcome of one `Send` call: the returned value (`none` =
panic), the caller's message object as left after the call (`Send` mutates
and restores its `RegistrationIDs`), and instrumentation traces: the number
of transport calls issued, the sleep durations performed, the backoff values
used for those sleeps, the `allResults` map writes in program order, and the
decoded responses received in order. -/
structure SendResult where
  result : Option (Except HTTPError Response)
  msgAfter : Option Message
  calls : Nat
  sleeps : List Nat
  backoffs : List Nat
  recs : List (String × Result)
  resps : List Response
  deriving DecidableEq

/-- The retry loop of `Send` (sender.go lines 186-226), parameterised by the
remaining retry budget `fuel` (= `retries - i`) and the round index `i`.
Each condition evaluation first runs `updateStatus`, which writes this
round's results into the map and shrinks `msg.RegistrationIDs` to the
"Unavailable" subset; the loop body sleeps, advances the backoff and issues
the next transport call.  On a transport error the original ids are restored
before returning; on a transport panic (`none`) nothing more runs, so the
message keeps the shrunk id list.  On normal exit the original ids are
restored and the aggregate response is built. -/
def sendLoop (apiKey : String) (transport : Transport) (rng : Nat → Nat)
    (origIDs : List String) :
    Nat → Nat → Message → Response → Ledger → Nat → Nat →
    List Nat → List Nat → List (String × Result) → List Response → SendResult
  | 0, _, m, resp, acc, _, calls, sleeps, backoffs, recs, resps =>
    match updateStatus (m.RegistrationIDs.getD []) resp.Results acc with
    | none => ⟨none, some m, calls, sleeps, backoffs, recs, resps⟩
    | some (acc2, _) =>
      ⟨some (Except.ok (buildFinal origIDs acc2 resp)),
        some { m with RegistrationIDs := some origIDs },
        calls, sleeps, backoffs,
        recs ++ (m.RegistrationIDs.getD []).zip resp.Results, resps⟩
  | fuel + 1, i, m, resp, acc, backoff, calls, sleeps, backoffs, recs, resps =>
    match updateStatus (m.RegistrationIDs.getD []) resp.Results acc with
    | none => ⟨none, some m, calls, sleeps, backoffs, recs, resps⟩
    | some (acc2, unsent) =>
      if unsent.length = 0 then
        ⟨some (Except.ok (buildFinal origIDs acc2 resp)),
          some { m with RegistrationIDs := some origIDs },
          calls, sleeps, backoffs,
          recs ++ (m.RegistrationIDs.getD []).zip resp.Results, resps⟩
      else
        match SendNoRetryRun apiKey transport calls
            (some { m with RegistrationIDs := some unsent }) with
        | (none, k) =>
          ⟨none, some { m with RegistrationIDs := some unsent }, calls + k,
            sleeps ++ [calculateSleep backoff (rng i)], backoffs ++ [backoff],
            recs ++ (m.RegistrationIDs.getD []).zip resp.Results, resps⟩
        | (some (Except.error e), k) =>
          ⟨some (Except.error (wrapHTTPError e)),
            some { m with RegistrationIDs := some origIDs }, calls + k,
            sleeps ++ [calculateSleep backoff (rng i)], backoffs ++ [backoff],
            recs ++ (m.RegistrationIDs.getD []).zip resp.Results, resps⟩
        | (some (Except.ok resp2), k) =>
          sendLoop apiKey transport rng origIDs fuel (i + 1)
            { m with RegistrationIDs := some unsent } resp2 acc2
            (min (2 * backoff) maxBackoffDelay) (calls + k)
            (sleeps ++ [calculateSleep backoff (rng i)]) (backoffs ++ [backoff])
            (recs ++ (m.RegistrationIDs.getD []).zip resp.Results)
            (resps ++ [resp2])

/-- Send from sender.go (lines 170-227): negative-retries check, first
`SendNoRetry` call, early return on zero failures or zero retries, else the
retry loop. -/
def Send (apiKey : String) (transport : Transport) (rng : Nat → Nat)
    (msg : Option Message) (retries : Int) : SendResult :=
  if retries < 0 then
    ⟨some (Except.error ⟨0, "\x27retries\x27 must be positive", 0⟩), msg, 0, [], [], [], []⟩
  else
    match SendNoRetryRun apiKey transport 0 msg with
    | (none, k) => ⟨none, msg, k, [], [], [], []⟩
    | (some (Except.error e), k) =>
      ⟨some (Except.error (wrapHTTPError e)), msg, k, [], [], [], []⟩
    | (some (Except.ok resp), k) =>
      if resp.Failure = 0 ∨ retries = 0 then
        ⟨some (Except.ok resp), msg, k, [], [], [], [resp]⟩
      else
        match msg with
        | none => ⟨none, msg, k, [], [], [], [resp]⟩
        | some m =>
          match m.RegistrationIDs with
          | none => ⟨none, msg, k, [], [], [], [resp]⟩
          | some ids =>
            sendLoop apiKey transport rng ids retries.toNat 0 m resp emptyLedger
              backoffInitialDelay k [] [] [] [resp]

/-- The raw `*http.Response` fields that `SendNoRetry` reads. -/
structure RawResp where
  StatusCode : Int
  Status : String
  RetryAfterHeader : String
  Body : String
  deriving DecidableEq

/-- The deferred `resp.Body.Close()` of `SendNoRetry` (sender.go line 111),
armed right after `s.HTTP.Do` returns and executed when the function returns:
if the response is nil it dereferences nil and panics (`none`), discarding
the would-be return value `ret`. -/
def closeDefer (resp : Option RawResp) (ret : Option (Except HTTPError Response)) :
    Option (Except HTTPError Response) :=
  match resp with
  | none => none
  | some _ => ret

/-- SendNoRetry from sender.go at statement granularity around the HTTP call
(lines 91-139).  `doResp`/`doErr` are the two values returned by
`s.HTTP.Do(req)` (a transport-level network failure is `doResp = none`,
`doErr = some e`); `retryAfterParse` models `parseRetryAfter` applied to the
Retry-After header and `decodeBody` the JSON decoding of the body.  Every
return of the body flows through `closeDefer`, and reading `resp.StatusCode`
on a nil response is itself a panic (`none`). -/
def SendNoRetryFine (apiKey : String) (msg : Option Message)
    (doResp : Option RawResp) (doErr : Option String)
    (retryAfterParse : String → Except String Int)
    (decodeBody : String → Except String Response) :
    Option (Except HTTPError Response) :=
  if apiKey = "" then
    some (Except.error ⟨0, "the sender\x27s API key must not be empty", 0⟩)
  else
    match checkMessage msg with
    | some e => some (Except.error ⟨0, e, 0⟩)
    | none =>
      closeDefer doResp
        (match doErr with
          | some e => some (Except.error ⟨0, e, 0⟩)
          | none =>
            match doResp with
            | none => none
            | some resp =>
              if resp.StatusCode ≠ 200 then
                match retryAfterParse resp.RetryAfterHeader with
                | Except.error _ =>
                  some (Except.error ⟨resp.StatusCode, resp.Status, 0⟩)
                | Except.ok delta =>
                  some (Except.error ⟨resp.StatusCode, resp.Status, delta⟩)
              else
                match decodeBody resp.Body with
                | Except.error e => some (Except.error ⟨0, e, 0⟩)
                | Except.ok response => some (Except.ok response))

/-- Concrete identifier list used by the C3 witness. -/
def c3ids : List String := ["a", "b"]

/-- Concrete round results used by the C3 witness. -/
def c3rs : List Result := [⟨"", "", "Unavailable"⟩, ⟨"m", "", ""⟩]

/-- Concrete well-formed message used by witnesses: two registration ids. -/
def wm : Message := ⟨some ["A", "B"], "", "", false, 0, "", false⟩

/-- `wm` as the nil-able argument of `Send`. -/
def wmsg : Option Message := some wm

/-- Concrete random oracle used by witnesses: always draws 0. -/
def wrng : Nat → Nat := fun _ => 0

/-- Concrete first-round response used by witnesses: "A" succeeded, "B" is
"Unavailable". -/
def wresp0 : Response := ⟨5, 1, 1, 0, [⟨"m1", "", ""⟩, ⟨"", "", "Unavailable"⟩]⟩

/-- Concrete transport used by witnesses: first call returns `wresp0`, the
retry round succeeds for "B" with a canonical id. -/
def wtrA : Transport := fun n _ =>
  if n = 0 then some (Except.ok wresp0)
  else some (Except.ok ⟨6, 1, 0, 0, [⟨"m2", "c2", ""⟩]⟩)

/-- Concrete transport whose first response carries fewer results than ids
sent (only one result for two ids), so "B" is never recorded. -/
def wtr7 : Transport := fun n _ =>
  if n = 0 then some (Except.ok ⟨7, 0, 1, 0, [⟨"", "", "Unavailable"⟩]⟩)
  else some (Except.ok ⟨9, 1, 0, 0, [⟨"mid", "", ""⟩]⟩)

/-- The identifier list of `wm`. -/
def wids : List String := ["A", "B"]

/-- The aggregated response `Send` produces on the `wtrA` scenario. -/
def wr2 : Response := ⟨6, 2, 0, 1, [⟨"m1", "", ""⟩, ⟨"m2", "c2", ""⟩]⟩

/-- The first response of the `wtr7` scenario (one result for two ids). -/
def wresp7 : Response := ⟨7, 0, 1, 0, [⟨"", "", "Unavailable"⟩]⟩

/-- The aggregated response `Send` produces on the `wtr7` scenario: the
second recipient was never recorded and appears as the zero result. -/
def wr7 : Response := ⟨9, 1, 1, 0, [⟨"mid", "", ""⟩, ⟨"", "", ""⟩]⟩

/-- Concrete message whose RegistrationIDs slice is nil. -/
def wbadNil : Message := ⟨none, "", "", false, 0, "", false⟩

/-- Concrete message whose RegistrationIDs slice is empty but not nil. -/
def wbadEmpty : Message := ⟨some [], "", "", false, 0, "", false⟩

/-- Concrete message with 1001 registration ids. -/
def wbadLong : Message := ⟨some (List.replicate 1001 "x"), "", "", false, 0, "", false⟩

/-- Concrete single-id message used by the C9 witness. -/
def wmOne : Message := ⟨some ["A"], "", "", false, 0, "", false⟩

/-- Concrete response with an empty results list (used by the C9 witness:
`updateStatus` then selects nothing). -/
def wrespEmpty : Response := ⟨1, 0, 0, 0, []⟩

/-- Concrete Retry-After parser stub used by the C10 witness. -/
def wrap10 : String → Except String Int := fun _ => Except.error "unparseable"

/-- Concrete body decoder stub used by the C10 witness. -/
def wdec10 : String → Except String Response := fun _ => Except.error "eof"

/-- Concrete transport that always fails at the network level with a nil
response (used by the C10 witness). -/
def wtrNil : Transport := fun _ _ => none

lemma updateStatus_nil_results (gs : List String) (acc : Ledger) :
    updateStatus gs [] acc = some (acc, []) := by
  cases gs <;> rfl

lemma lookupLast_cons (p : String × Result) (t : List (String × Result)) (g : String) :
    lookupLast (p :: t) g =
      match lookupLast t g with
      | some r => some r
      | none => if g = p.1 then some p.2 else none := rfl

lemma updateStatus_total (rs : List Result) :
    ∀ (gs : List String) (acc : Ledger), rs.length ≤ gs.length →
      ∃ y, updateStatus gs rs acc = some y := by
  induction rs with
  | nil =>
    intro gs acc _
    exact ⟨(acc, []), updateStatus_nil_results gs acc⟩
  | cons r rs ih =>
    intro gs acc h
    cases gs with
    | nil => simp at h
    | cons g gs =>
      obtain ⟨⟨acc2, unsent⟩, hy⟩ := ih gs (setResult acc g r) (by simpa using h)
      exact ⟨(acc2, if r.Error == "Unavailable" then g :: unsent else unsent),
        by simp [updateStatus, hy]⟩

lemma updateStatus_acc (rs : List Result) :
    ∀ (gs : List String) (acc acc2 : Ledger) (unsent : List String),
      updateStatus gs rs acc = some (acc2, unsent) →
      ∀ x, acc2 x =
        match lookupLast (gs.zip rs) x with
        | some u => some u
        | none => acc x := by
  induction rs with
  | nil =>
    intro gs acc acc2 unsent h x
    rw [updateStatus_nil_results] at h
    cases h
    simp [List.zip_nil_right, lookupLast]
  | cons r rs ih =>
    intro gs acc acc2 unsent h x
    cases gs with
    | nil => simp [updateStatus] at h
    | cons g gs =>
      simp only [updateStatus] at h
      cases hin : updateStatus gs rs (setResult acc g r) with
      | none => rw [hin] at h; simp at h
      | some y =>
        obtain ⟨a2, u2⟩ := y
        rw [hin] at h
        cases h
        have hrec := ih gs (setResult acc g r) acc2 u2 hin x
        rw [List.zip_cons_cons, lookupLast_cons]
        cases hz : lookupLast (gs.zip rs) x with
        | some u =>
          rw [hz] at hrec
          simpa using hrec
        | none =>
          rw [hz] at hrec
          simp only [setResult] at hrec
          by_cases hg : x = g
          · subst hg
            simpa using hrec
          · simp only [if_neg hg] at hrec
            simp [hrec, hg]

lemma updateStatus_unsent (rs : List Result) :
    ∀ (gs : List String) (acc acc2 : Ledger) (unsent : List String),
      updateStatus gs rs acc = some (acc2, unsent) →
      unsent = unsentOf (gs.zip rs) := by
  induction rs with
  | nil =>
    intro gs acc acc2 unsent h
    rw [updateStatus_nil_results] at h
    cases h
    simp [List.zip_nil_right, unsentOf]
  | cons r rs ih =>
    intro gs acc acc2 unsent h
    cases gs with
    | nil => simp [updateStatus] at h
    | cons g gs =>
      simp only [updateStatus] at h
      cases hin : updateStatus gs rs (setResult acc g r) with
      | none => rw [hin] at h; simp at h
      | some y =>
        obtain ⟨a2, u2⟩ := y
        rw [hin] at h
        cases h
        have hrec := ih gs (setResult acc g r) acc2 u2 hin
        subst hrec
        simp only [List.zip_cons_cons, unsentOf, List.filter_cons]
        cases hc : (r.Error == "Unavailable") <;> simp [hc, unsentOf]

lemma lookupLast_append (a b : List (String × Result)) (x : String) :
    lookupLast (a ++ b) x =
      match lookupLast b x with
      | some r => some r
      | none => lookupLast a x := by
  induction a with
  | nil =>
    simp only [List.nil_append]
    cases hb : lookupLast b x <;> simp [lookupLast]
  | cons p t ih =>
    simp only [List.cons_append, lookupLast_cons, ih]
    cases hb : lookupLast b x <;> cases ht : lookupLast t x <;> simp [lookupLast]

lemma message_update_update (m : Message) (a b : Option (List String)) :
    ({ { m with RegistrationIDs := a } with RegistrationIDs := b } : Message)
      = { m with RegistrationIDs := b } := rfl

lemma message_update_self (m : Message) (ids : List String)
    (h : m.RegistrationIDs = some ids) :
    ({ m with RegistrationIDs := some ids } : Message) = m := by
  cases m
  simp_all

lemma tallyLoop_eq (rs : List Result) :
    ∀ s f c, tallyLoop rs s f c =
      (s + List.countP (fun x => !(x.MessageID == "")) rs,
        f + List.countP (fun x => x.MessageID == "") rs,
        c + List.countP (fun x => !(x.MessageID == "") && !(x.RegistrationID == "")) rs) := by
  induction rs with
  | nil => intro s f c; simp [tallyLoop]
  | cons r rs ih =>
    intro s f c
    by_cases h1 : r.MessageID = ""
    · simp only [tallyLoop, if_pos h1, ih, List.countP_cons, Prod.ext_iff]
      simp [h1]
      omega
    · by_cases h2 : r.RegistrationID = ""
      · simp only [tallyLoop, if_neg h1, if_pos h2, ih, List.countP_cons, Prod.ext_iff]
        simp [h1, h2]
        omega
      · simp only [tallyLoop, if_neg h1, if_neg h2, ih, List.countP_cons, Prod.ext_iff]
        simp [h1, h2]
        omega

lemma buildFinal_eq (origIDs : List String) (acc : Ledger) (lastResp : Response) :
    buildFinal origIDs acc lastResp =
      { MulticastID := lastResp.MulticastID
        Success := List.countP (fun x => !(x.MessageID == ""))
          (origIDs.map (fun g => (acc g).getD zeroResult))
        Failure := List.countP (fun x => x.MessageID == "")
          (origIDs.map (fun g => (acc g).getD zeroResult))
        CanonicalIDs := List.countP (fun x => !(x.MessageID == "") && !(x.RegistrationID == ""))
          (origIDs.map (fun g => (acc g).getD zeroResult))
        Results := origIDs.map (fun g => (acc g).getD zeroResult) } := by
  simp [buildFinal, tallyLoop_eq]

lemma SendNoRetryRun_calls (apiKey : String) (transport : Transport) (callIdx : Nat)
    (msg : Option Message) : (SendNoRetryRun apiKey transport callIdx msg).2 ≤ 1 := by
  unfold SendNoRetryRun
  split
  · simp
  · split <;> simp

lemma sendLoop_msgAfter (apiKey : String) (transport : Transport) (rng : Nat → Nat)
    (origIDs : List String) :
    ∀ (fuel i : Nat) (m : Message) (resp : Response) (acc : Ledger)
      (backoff calls : Nat) (sleeps backoffs : List Nat)
      (recs : List (String × Result)) (resps : List Response),
      ¬ (sendLoop apiKey transport rng origIDs fuel i m resp acc backoff calls
          sleeps backoffs recs resps).result = none →
      (sendLoop apiKey transport rng origIDs fuel i m resp acc backoff calls
          sleeps backoffs recs resps).msgAfter
        = some { m with RegistrationIDs := some origIDs } := by
  intro fuel
  induction fuel with
  | zero =>
    intro i m resp acc backoff calls sleeps backoffs recs resps h
    simp only [sendLoop] at h ⊢
    cases hup : updateStatus (m.RegistrationIDs.getD []) resp.Results acc with
    | none => rw [hup] at h; exact absurd rfl h
    | some y =>
      obtain ⟨acc2, unsent⟩ := y
      rfl
  | succ fuel ih =>
    intro i m resp acc backoff calls sleeps backoffs recs resps h
    simp only [sendLoop] at h ⊢
    cases hup : updateStatus (m.RegistrationIDs.getD []) resp.Results acc with
    | none => rw [hup] at h; exact absurd rfl h
    | some y =>
      obtain ⟨acc2, unsent⟩ := y
      rw [hup] at h
      by_cases hlen : unsent.length = 0
      · simp [hlen]
      · simp only [if_neg hlen] at h ⊢
        cases hsr : SendNoRetryRun apiKey transport calls
            (some { m with RegistrationIDs := some unsent }) with
        | mk res k =>
          rw [hsr] at h
          cases res with
          | none => exact absurd rfl h
          | some ex =>
            cases ex with
            | error e => rfl
            | ok resp2 =>
              exact ih (i + 1) { m with RegistrationIDs := some unsent } resp2 acc2
                (min (2 * backoff) maxBackoffDelay) (calls + k)
                (sleeps ++ [calculateSleep backoff (rng i)]) (backoffs ++ [backoff])
                (recs ++ (m.RegistrationIDs.getD []).zip resp.Results)
                (resps ++ [resp2]) h

lemma sendLoop_calls (apiKey : String) (transport : Transport) (rng : Nat → Nat)
    (origIDs : List String) :
    ∀ (fuel i : Nat) (m : Message) (resp : Response) (acc : Ledger)
      (backoff calls : Nat) (sleeps backoffs : List Nat)
      (recs : List (String × Result)) (resps : List Response),
      (sendLoop apiKey transport rng origIDs fuel i m resp acc backoff calls
          sleeps backoffs recs resps).calls ≤ calls + fuel := by
  intro fuel
  induction fuel with
  | zero =>
    intro i m resp acc backoff calls sleeps backoffs recs resps
    simp only [sendLoop]
    cases hup : updateStatus (m.RegistrationIDs.getD []) resp.Results acc with
    | none => simp
    | some y =>
      obtain ⟨acc2, unsent⟩ := y
      simp
  | succ fuel ih =>
    intro i m resp acc backoff calls sleeps backoffs recs resps
    simp only [sendLoop]
    cases hup : updateStatus (m.RegistrationIDs.getD []) resp.Results acc with
    | none => simp
    | some y =>
      obtain ⟨acc2, unsent⟩ := y
      by_cases hlen : unsent.length = 0
      · simp [hlen]
      · simp only [if_neg hlen]
        cases hsr : SendNoRetryRun apiKey transport calls
            (some { m with RegistrationIDs := some unsent }) with
        | mk res k =>
          have hk : k ≤ 1 := by
            have := SendNoRetryRun_calls apiKey transport calls
              (some { m with RegistrationIDs := some unsent })
            rw [hsr] at this
            exact this
          cases res with
          | none => simp; omega
          | some ex =>
            cases ex with
            | error e => simp; omega
            | ok resp2 =>
              exact le_trans
                (ih (i + 1) { m with RegistrationIDs := some unsent } resp2 acc2
                  (min (2 * backoff) maxBackoffDelay) (calls + k)
                  (sleeps ++ [calculateSleep backoff (rng i)]) (backoffs ++ [backoff])
                  (recs ++ (m.RegistrationIDs.getD []).zip resp.Results)
                  (resps ++ [resp2]))
                (by omega)

lemma sendLoop_early_exit (apiKey : String) (transport : Transport) (rng : Nat → Nat)
    (origIDs : List String) (fuel i : Nat) (m : Message) (resp : Response)
    (acc acc2 : Ledger) (backoff calls : Nat) (sleeps backoffs : List Nat)
    (recs : List (String × Result)) (resps : List Response)
    (h : updateStatus (m.RegistrationIDs.getD []) resp.Results acc = some (acc2, [])) :
    (sendLoop apiKey transport rng origIDs fuel i m resp acc backoff calls
        sleeps backoffs recs resps).calls = calls := by
  cases fuel with
  | zero => simp [sendLoop, h]
  | succ fuel => simp [sendLoop, h]

lemma sendLoop_backoffs (apiKey : String) (transport : Transport) (rng : Nat → Nat)
    (origIDs : List String) :
    ∀ (fuel i : Nat) (m : Message) (resp : Response) (acc : Ledger)
      (calls : Nat) (sleeps : List Nat)
      (recs : List (String × Result)) (resps : List Response),
      ∃ n, (sendLoop apiKey transport rng origIDs fuel i m resp acc (backoffIter i)
          calls sleeps ((List.range i).map backoffIter) recs resps).backoffs
        = (List.range n).map backoffIter := by
  intro fuel
  induction fuel with
  | zero =>
    intro i m resp acc calls sleeps recs resps
    simp only [sendLoop]
    cases hup : updateStatus (m.RegistrationIDs.getD []) resp.Results acc with
    | none => exact ⟨i, rfl⟩
    | some y =>
      obtain ⟨acc2, unsent⟩ := y
      exact ⟨i, rfl⟩
  | succ fuel ih =>
    intro i m resp acc calls sleeps recs resps
    simp only [sendLoop]
    cases hup : updateStatus (m.RegistrationIDs.getD []) resp.Results acc with
    | none => exact ⟨i, rfl⟩
    | some y =>
      obtain ⟨acc2, unsent⟩ := y
      by_cases hlen : unsent.length = 0
      · simp only [if_pos hlen]
        exact ⟨i, rfl⟩
      · simp only [if_neg hlen]
        have hconcat : (List.range i).map backoffIter ++ [backoffIter i]
            = (List.range (i + 1)).map backoffIter := by
          rw [List.range_succ, List.map_append]
          rfl
        cases hsr : SendNoRetryRun apiKey transport calls
            (some { m with RegistrationIDs := some unsent }) with
        | mk res k =>
          cases res with
          | none => exact ⟨i + 1, hconcat⟩
          | some ex =>
            cases ex with
            | error e => exact ⟨i + 1, hconcat⟩
            | ok resp2 =>
              rw [hconcat]
              exact ih (i + 1) { m with RegistrationIDs := some unsent } resp2 acc2
                (calls + k) (sleeps ++ [calculateSleep (backoffIter i) (rng i)])
                (recs ++ (m.RegistrationIDs.getD []).zip resp.Results)
                (resps ++ [resp2])

lemma sendLoop_ok_spec (apiKey : String) (transport : Transport) (rng : Nat → Nat)
    (origIDs : List String) :
    ∀ (fuel i : Nat) (m : Message) (resp : Response) (acc : Ledger)
      (backoff calls : Nat) (sleeps backoffs : List Nat)
      (recs : List (String × Result)) (resps : List Response)
      (out : SendResult) (r : Response),
      sendLoop apiKey transport rng origIDs fuel i m resp acc backoff calls
          sleeps backoffs recs resps = out →
      (∀ x, acc x = lookupLast recs x) →
      resps.getLast? = some resp →
      out.result = some (Except.ok r) →
      r.Results = origIDs.map (fun g => (lookupLast out.recs g).getD zeroResult) ∧
      r.Success = List.countP (fun x => !(x.MessageID == "")) r.Results ∧
      r.Failure = List.countP (fun x => x.MessageID == "") r.Results ∧
      r.CanonicalIDs =
        List.countP (fun x => !(x.MessageID == "") && !(x.RegistrationID == "")) r.Results ∧
      ∃ lr, out.resps.getLast? = some lr ∧ r.MulticastID = lr.MulticastID := by
  intro fuel
  induction fuel with
  | zero =>
    intro i m resp acc backoff calls sleeps backoffs recs resps out r hout hacc hresp hres
    simp only [sendLoop] at hout
    cases hup : updateStatus (m.RegistrationIDs.getD []) resp.Results acc with
    | none =>
      rw [hup] at hout
      subst hout
      exact absurd hres (by simp)
    | some y =>
      obtain ⟨acc2, unsent⟩ := y
      rw [hup] at hout
      subst hout
      have hr : buildFinal origIDs acc2 resp = r := by simpa using hres
      subst hr
      have hacc2 : ∀ x, acc2 x =
          lookupLast (recs ++ (m.RegistrationIDs.getD []).zip resp.Results) x := by
        intro x
        rw [lookupLast_append]
        have h1 := updateStatus_acc resp.Results (m.RegistrationIDs.getD [])
          acc acc2 unsent hup x
        rw [h1]
        cases hz : lookupLast ((m.RegistrationIDs.getD []).zip resp.Results) x <;>
          simp [hz, hacc x]
      refine ⟨?_, ?_, ?_, ?_, ⟨resp, hresp, ?_⟩⟩
      · rw [buildFinal_eq]
        exact List.map_congr_left (fun g _ => by rw [hacc2 g])
      · rw [buildFinal_eq]
      · rw [buildFinal_eq]
      · rw [buildFinal_eq]
      · rw [buildFinal_eq]
  | succ fuel ih =>
    intro i m resp acc backoff calls sleeps backoffs recs resps out r hout hacc hresp hres
    simp only [sendLoop] at hout
    cases hup : updateStatus (m.RegistrationIDs.getD []) resp.Results acc with
    | none =>
      rw [hup] at hout
      subst hout
      exact absurd hres (by simp)
    | some y =>
      obtain ⟨acc2, unsent⟩ := y
      rw [hup] at hout
      have hacc2 : ∀ x, acc2 x =
          lookupLast (recs ++ (m.RegistrationIDs.getD []).zip resp.Results) x := by
        intro x
        rw [lookupLast_append]
        have h1 := updateStatus_acc resp.Results (m.RegistrationIDs.getD [])
          acc acc2 unsent hup x
        rw [h1]
        cases hz : lookupLast ((m.RegistrationIDs.getD []).zip resp.Results) x <;>
          simp [hz, hacc x]
      by_cases hlen : unsent.length = 0
      · simp only [if_pos hlen] at hout
        subst hout
        have hr : buildFinal origIDs acc2 resp = r := by simpa using hres
        subst hr
        refine ⟨?_, ?_, ?_, ?_, ⟨resp, hresp, ?_⟩⟩
        · rw [buildFinal_eq]
          exact List.map_congr_left (fun g _ => by rw [hacc2 g])
        · rw [buildFinal_eq]
        · rw [buildFinal_eq]
        · rw [buildFinal_eq]
        · rw [buildFinal_eq]
      · simp only [if_neg hlen] at hout
        cases hsr : SendNoRetryRun apiKey transport calls
            (some { m with RegistrationIDs := some unsent }) with
        | mk res k =>
          rw [hsr] at hout
          cases res with
          | none =>
            subst hout
            exact absurd hres (by simp)
          | some ex =>
            cases ex with
            | error e =>
              subst hout
              exact absurd hres (by simp)
            | ok resp2 =>
              exact ih (i + 1) { m with RegistrationIDs := some unsent } resp2 acc2
                (min (2 * backoff) maxBackoffDelay) (calls + k)
                (sleeps ++ [calculateSleep backoff (rng i)]) (backoffs ++ [backoff])
                (recs ++ (m.RegistrationIDs.getD []).zip resp.Results)
                (resps ++ [resp2]) out r hout hacc2
                (List.getLast?_concat resps) hres

/-- C3: in each round, an identifier is selected for the next retry round if
and only if its recorded outcome has error string exactly "Unavailable"
(= `ResponseErrorUnavailable`); every other error string is not selected; and
`updateStatus` does not panic (returns `some`) whenever the results list is no
longer than the current identifier list. -/
theorem updateStatus_selects_exactly_unavailable
    (gs : List String) (rs : List Result) (acc : Ledger)
    (h : rs.length ≤ gs.length) :
    (∃ acc2, updateStatus gs rs acc = some (acc2, unsentOf (gs.zip rs))) ∧
    (∀ g, g ∈ unsentOf (gs.zip rs) ↔
      ∃ p, p ∈ gs.zip rs ∧ p.1 = g ∧ p.2.Error = ResponseErrorUnavailable) ∧
    ResponseErrorUnavailable = "Unavailable" := by
  obtain ⟨⟨acc2, unsent⟩, hy⟩ := updateStatus_total rs gs acc h
  have hu := updateStatus_unsent rs gs acc acc2 unsent hy
  subst hu
  refine ⟨⟨acc2, hy⟩, ?_, rfl⟩
  intro g
  simp only [unsentOf, List.mem_map, List.mem_filter, beq_iff_eq,
    ResponseErrorUnavailable]
  tauto

/-- Witness for C3 at a concrete round: ids ["a", "b"], first result
"Unavailable", second a success. -/
theorem updateStatus_selects_exactly_unavailable_witness :
    (c3rs.length ≤ c3ids.length) ∧
    ((∃ acc2, updateStatus c3ids c3rs emptyLedger
        = some (acc2, unsentOf (c3ids.zip c3rs))) ∧
      (∀ g, g ∈ unsentOf (c3ids.zip c3rs) ↔
        ∃ p, p ∈ c3ids.zip c3rs ∧ p.1 = g ∧ p.2.Error = ResponseErrorUnavailable) ∧
      ResponseErrorUnavailable = "Unavailable") :=
  ⟨by decide,
    updateStatus_selects_exactly_unavailable c3ids c3rs emptyLedger (by decide)⟩

lemma Send_enters_loop (apiKey : String) (transport : Transport) (rng : Nat → Nat)
    (m : Message) (ids : List String) (retries : Int) (resp0 : Response)
    (h1 : ¬ apiKey = "") (h2 : checkMessage (some m) = none)
    (h3 : m.RegistrationIDs = some ids)
    (h4 : transport 0 ids = some (Except.ok resp0))
    (h5 : ¬ resp0.Failure = 0) (h6 : 0 < retries) :
    Send apiKey transport rng (some m) retries
      = sendLoop apiKey transport rng ids retries.toNat 0 m resp0 emptyLedger
          backoffInitialDelay 1 [] [] [] [resp0] := by
  have hneg : ¬ retries < 0 := by omega
  have hne0 : ¬ retries = 0 := by omega
  simp only [Send, if_neg hneg, SendNoRetryRun, if_neg h1, h2, msgRegIDs, h3,
    Option.getD_some, h4]
  simp [h5, hne0, h3]

/-- C1: on every exit path on which `Send` returns (success, the early
return, or an error return — as opposed to panicking), the caller's message,
and in particular its RegistrationIDs list, equals its value before the
call: the shrunk retry subset written by updateStatus is never visible to
the caller after return. -/
theorem Send_restores_registration_ids (apiKey : String) (transport : Transport)
    (rng : Nat → Nat) (msg : Option Message) (retries : Int)
    (h : ¬ (Send apiKey transport rng msg retries).result = none) :
    (Send apiKey transport rng msg retries).msgAfter = msg := by
  by_cases hneg : retries < 0
  · simp [Send, hneg]
  · simp only [Send, if_neg hneg] at h ⊢
    cases hsr : SendNoRetryRun apiKey transport 0 msg with
    | mk res k =>
      rw [hsr] at h
      cases res with
      | none => exact absurd rfl h
      | some ex =>
        cases ex with
        | error e => rfl
        | ok resp =>
          by_cases hb : resp.Failure = 0 ∨ retries = 0
          · simp [hb]
          · simp only [if_neg hb] at h ⊢
            cases msg with
            | none => exact absurd rfl h
            | some m =>
              cases hrid : m.RegistrationIDs with
              | none =>
                simp only [hrid] at h
                exact absurd trivial h
              | some ids =>
                simp only [hrid] at h ⊢
                rw [sendLoop_msgAfter apiKey transport rng ids retries.toNat 0 m resp
                  emptyLedger backoffInitialDelay k [] [] [] [resp] h]
                rw [message_update_self m ids hrid]

/-- Witness for C1 on a concrete run that enters the retry loop and
returns successfully. -/
theorem Send_restores_registration_ids_witness :
    (¬ (Send "key" wtrA wrng wmsg 1).result = none) ∧
    (Send "key" wtrA wrng wmsg 1).msgAfter = wmsg :=
  ⟨by decide, Send_restores_registration_ids "key" wtrA wrng wmsg 1 (by decide)⟩

/-- C4: a nil message, a nil or empty RegistrationIDs list, a list of more
than 1000 ids, and a negative retries count are each rejected with the
corresponding validation error before any transport call is issued
(`calls = 0`), and negative retries are rejected rather than clamped. -/
theorem Send_validation_no_transport (apiKey : String) (transport : Transport)
    (rng : Nat → Nat) (h1 : ¬ apiKey = "") :
    (∀ retries : Int, 0 ≤ retries →
      (Send apiKey transport rng none retries).result
          = some (Except.error (wrapHTTPError ⟨0, "the message must not be nil", 0⟩)) ∧
        (Send apiKey transport rng none retries).calls = 0) ∧
    (∀ retries : Int, 0 ≤ retries → ∀ m : Message, m.RegistrationIDs = none →
      (Send apiKey transport rng (some m) retries).result
          = some (Except.error (wrapHTTPError
              ⟨0, "the message\x27s RegistrationIDs field must not be nil", 0⟩)) ∧
        (Send apiKey transport rng (some m) retries).calls = 0) ∧
    (∀ retries : Int, 0 ≤ retries → ∀ m : Message, m.RegistrationIDs = some [] →
      (Send apiKey transport rng (some m) retries).result
          = some (Except.error (wrapHTTPError
              ⟨0, "the message must specify at least one registration ID", 0⟩)) ∧
        (Send apiKey transport rng (some m) retries).calls = 0) ∧
    (∀ retries : Int, 0 ≤ retries → ∀ (m : Message) (ids : List String),
      m.RegistrationIDs = some ids → 1000 < ids.length →
      (Send apiKey transport rng (some m) retries).result
          = some (Except.error (wrapHTTPError
              ⟨0, "the message may specify at most 1000 registration IDs", 0⟩)) ∧
        (Send apiKey transport rng (some m) retries).calls = 0) ∧
    (∀ (msg : Option Message) (retries : Int), retries < 0 →
      (Send apiKey transport rng msg retries).result
          = some (Except.error ⟨0, "\x27retries\x27 must be positive", 0⟩) ∧
        (Send apiKey transport rng msg retries).calls = 0) := by
  refine ⟨?_, ?_, ?_, ?_, ?_⟩
  · intro retries hr
    have hneg : ¬ retries < 0 := by omega
    simp [Send, if_neg hneg, SendNoRetryRun, if_neg h1, checkMessage]
  · intro retries hr m hm
    have hneg : ¬ retries < 0 := by omega
    simp [Send, if_neg hneg, SendNoRetryRun, if_neg h1, checkMessage, hm]
  · intro retries hr m hm
    have hneg : ¬ retries < 0 := by omega
    simp [Send, if_neg hneg, SendNoRetryRun, if_neg h1, checkMessage, hm]
  · intro retries hr m ids hm hlen
    have hneg : ¬ retries < 0 := by omega
    have hne : ¬ ids.length = 0 := by omega
    simp [Send, if_neg hneg, SendNoRetryRun, if_neg h1, checkMessage, hm, hne, hlen]
  · intro msg retries hr
    simp [Send, hr]

/-- Witness for C4 at concrete ill-formed inputs. -/
theorem Send_validation_no_transport_witness :
    ((Send "key" wtrA wrng none 0).result
        = some (Except.error (wrapHTTPError ⟨0, "the message must not be nil", 0⟩)) ∧
      (Send "key" wtrA wrng none 0).calls = 0) ∧
    ((Send "key" wtrA wrng (some wbadNil) 0).result
        = some (Except.error (wrapHTTPError
            ⟨0, "the message\x27s RegistrationIDs field must not be nil", 0⟩)) ∧
      (Send "key" wtrA wrng (some wbadNil) 0).calls = 0) ∧
    ((Send "key" wtrA wrng (some wbadEmpty) 0).result
        = some (Except.error (wrapHTTPError
            ⟨0, "the message must specify at least one registration ID", 0⟩)) ∧
      (Send "key" wtrA wrng (some wbadEmpty) 0).calls = 0) ∧
    ((Send "key" wtrA wrng (some wbadLong) 0).result
        = some (Except.error (wrapHTTPError
            ⟨0, "the message may specify at most 1000 registration IDs", 0⟩)) ∧
      (Send "key" wtrA wrng (some wbadLong) 0).calls = 0) ∧
    ((Send "key" wtrA wrng wmsg (-1)).result
        = some (Except.error ⟨0, "\x27retries\x27 must be positive", 0⟩) ∧
      (Send "key" wtrA wrng wmsg (-1)).calls = 0) := by
  have h := Send_validation_no_transport "key" wtrA wrng (by decide)
  exact ⟨h.1 0 (by decide),
    h.2.1 0 (by decide) wbadNil rfl,
    h.2.2.1 0 (by decide) wbadEmpty rfl,
    h.2.2.2.1 0 (by decide) wbadLong (List.replicate 1001 "x") rfl
      (by rw [List.length_replicate]; norm_num),
    h.2.2.2.2 wmsg (-1) (by decide)⟩

/-- C5 counterexample: the claim says the sleep for backoff 1000 is always
strictly below 1000, but with random draw 600 the code computes
1000*(100-50)/100 + 600 = 1100 ≥ 1000 (the code draws from
[0, 2*backoff*J/100), twice the window the claim states). -/
theorem calculateSleep_claim_counterexample :
    calculateSleep 1000 600 = 1100 ∧ ¬ calculateSleep 1000 600 < 1000 := by
  decide

/-- C5 (amended): the sleep equals floor(backoff*(100-J)/100) plus a uniform
draw from [0, 2*backoff*J/100) — twice the window the claim states — so for
backoff = 1000 it lies in [500, 1500), not [500, 1000). -/
theorem calculateSleep_bounds (b r : Nat) (h : 0 < b) :
    (∃ u, u < 2 * b * jitterPercentage / 100 ∧
      calculateSleep b r = b * (100 - jitterPercentage) / 100 + u) ∧
    500 ≤ calculateSleep 1000 r ∧ calculateSleep 1000 r < 1500 := by
  have he : 2 * b * jitterPercentage / 100 = b := by
    simp only [jitterPercentage]
    omega
  refine ⟨⟨r % (2 * b * jitterPercentage / 100), ?_, rfl⟩, ?_, ?_⟩
  · rw [he]
    exact Nat.mod_lt r h
  · simp only [calculateSleep, jitterPercentage]
    omega
  · simp only [calculateSleep, jitterPercentage]
    omega

/-- Witness for the amended C5 at backoff 1000, draw 600. -/
theorem calculateSleep_bounds_witness :
    (0 < 1000) ∧
    ((∃ u, u < 2 * 1000 * jitterPercentage / 100 ∧
        calculateSleep 1000 600 = 1000 * (100 - jitterPercentage) / 100 + u) ∧
      500 ≤ calculateSleep 1000 600 ∧ calculateSleep 1000 600 < 1500) :=
  ⟨by decide, calculateSleep_bounds 1000 600 (by decide)⟩

/-- C6: when the first response has zero failures, or retries = 0, `Send`
returns that first response unmodified with no error, exactly one transport
call, no sleep, and no mutation of the message. -/
theorem Send_early_return (apiKey : String) (transport : Transport)
    (rng : Nat → Nat) (m : Message) (retries : Int) (resp0 : Response)
    (h1 : ¬ apiKey = "") (h2 : checkMessage (some m) = none)
    (h4 : transport 0 (msgRegIDs (some m)) = some (Except.ok resp0))
    (h5 : 0 ≤ retries) (h6 : resp0.Failure = 0 ∨ retries = 0) :
    Send apiKey transport rng (some m) retries
      = ⟨some (Except.ok resp0), some m, 1, [], [], [], [resp0]⟩ := by
  have hneg : ¬ retries < 0 := by omega
  simp only [Send, if_neg hneg, SendNoRetryRun, if_neg h1, h2, h4, if_pos h6]

/-- Witness for C6: retries = 0 with a failing first response. -/
theorem Send_early_return_witness :
    Send "key" wtrA wrng wmsg 0
      = ⟨some (Except.ok wresp0), some wm, 1, [], [], [], [wresp0]⟩ :=
  Send_early_return "key" wtrA wrng wm 0 wresp0 (by decide) rfl (by decide)
    (by decide) (Or.inr rfl)

/-- C8: the backoff values used by the loop's sleeps form an initial segment
of the sequence backoffIter, which starts at 1000 and satisfies
backoffIter k = min(1000 * 2^k, 1024000) ≤ 1024000 for every round k. -/
theorem Send_backoff_sequence (apiKey : String) (transport : Transport)
    (rng : Nat → Nat) (msg : Option Message) (retries : Int) :
    (∃ n, (Send apiKey transport rng msg retries).backoffs
        = (List.range n).map backoffIter) ∧
    backoffIter 0 = 1000 ∧
    (∀ k, backoffIter k = min (1000 * 2 ^ k) 1024000) ∧
    (∀ k, backoffIter k ≤ 1024000) := by
  have hclosed : ∀ k, backoffIter k = min (1000 * 2 ^ k) 1024000 := by
    intro k
    induction k with
    | zero => rfl
    | succ k ihk =>
      simp only [backoffIter, backoffAdvance, ihk, maxBackoffDelay]
      rw [pow_succ, show 1000 * (2 ^ k * 2) = 2 * (1000 * 2 ^ k) from by ring]
      omega
  refine ⟨?_, rfl, hclosed, fun k => by rw [hclosed k]; exact min_le_right _ _⟩
  by_cases hneg : retries < 0
  · exact ⟨0, by simp [Send, hneg]⟩
  · simp only [Send, if_neg hneg]
    cases hsr : SendNoRetryRun apiKey transport 0 msg with
    | mk res k =>
      cases res with
      | none => exact ⟨0, rfl⟩
      | some ex =>
        cases ex with
        | error e => exact ⟨0, rfl⟩
        | ok resp =>
          by_cases hb : resp.Failure = 0 ∨ retries = 0
          · exact ⟨0, by simp [hb]⟩
          · simp only [if_neg hb]
            cases msg with
            | none => exact ⟨0, rfl⟩
            | some m =>
              cases hrid : m.RegistrationIDs with
              | none =>
                simp only [hrid]
                exact ⟨0, rfl⟩
              | some ids =>
                simp only [hrid]
                exact sendLoop_backoffs apiKey transport rng ids retries.toNat 0 m
                  resp emptyLedger k [] [] [resp]

/-- C9: the retry loop is bounded: at most 1 + retries transport calls in
total (the embedding is a total function, so the loop terminates), and as
soon as updateStatus selects an empty retry subset the loop issues no
further transport calls. -/
theorem Send_transport_call_bound (apiKey : String) (transport : Transport)
    (rng : Nat → Nat) :
    (∀ (msg : Option Message) (retries : Int),
      (Send apiKey transport rng msg retries).calls ≤ 1 + retries.toNat) ∧
    (∀ (origIDs : List String) (fuel i : Nat) (m : Message) (resp : Response)
        (acc acc2 : Ledger) (backoff calls : Nat) (sleeps backoffs : List Nat)
        (recs : List (String × Result)) (resps : List Response),
      updateStatus (m.RegistrationIDs.getD []) resp.Results acc = some (acc2, []) →
      (sendLoop apiKey transport rng origIDs fuel i m resp acc backoff calls
          sleeps backoffs recs resps).calls = calls) := by
  constructor
  · intro msg retries
    by_cases hneg : retries < 0
    · simp [Send, hneg]
    · simp only [Send, if_neg hneg]
      cases hsr : SendNoRetryRun apiKey transport 0 msg with
      | mk res k =>
        have hk : k ≤ 1 := by
          have h9 := SendNoRetryRun_calls apiKey transport 0 msg
          rw [hsr] at h9
          exact h9
        cases res with
        | none => exact (show k ≤ 1 + retries.toNat by omega)
        | some ex =>
          cases ex with
          | error e => exact (show k ≤ 1 + retries.toNat by omega)
          | ok resp =>
            by_cases hb : resp.Failure = 0 ∨ retries = 0
            · simp only [if_pos hb]
              exact (show k ≤ 1 + retries.toNat by omega)
            · simp only [if_neg hb]
              cases msg with
              | none => exact (show k ≤ 1 + retries.toNat by omega)
              | some m =>
                cases hrid : m.RegistrationIDs with
                | none =>
                  simp only [hrid]
                  exact (show k ≤ 1 + retries.toNat by omega)
                | some ids =>
                  simp only [hrid]
                  exact le_trans
                    (sendLoop_calls apiKey transport rng ids retries.toNat 0 m resp
                      emptyLedger backoffInitialDelay k [] [] [] [resp])
                    (by omega)
  · intro origIDs fuel i m resp acc acc2 backoff calls sleeps backoffs recs resps hup
    exact sendLoop_early_exit apiKey transport rng origIDs fuel i m resp acc acc2
      backoff calls sleeps backoffs recs resps hup

/-- Witness for C9 on concrete runs (including a round whose updateStatus
selects nothing). -/
theorem Send_transport_call_bound_witness :
    ((Send "key" wtrA wrng wmsg 1).calls ≤ 1 + (1 : Int).toNat) ∧
    ((updateStatus (wmOne.RegistrationIDs.getD []) wrespEmpty.Results emptyLedger
        = some (emptyLedger, [])) ∧
      (sendLoop "key" wtrA wrng ["A"] 3 0 wmOne wrespEmpty emptyLedger
          backoffInitialDelay 0 [] [] [] []).calls = 0) :=
  ⟨(Send_transport_call_bound "key" wtrA wrng).1 wmsg 1,
    rfl,
    (Send_transport_call_bound "key" wtrA wrng).2 ["A"] 3 0 wmOne wrespEmpty
      emptyLedger emptyLedger backoffInitialDelay 0 [] [] [] [] rfl⟩

/-- C2: for a run that enters the retry loop and returns without error, the
final Results list is the original id list mapped through the most recent
recorded outcome for each id (zero result when absent), so it has the
original length and order; Success counts the entries with non-empty
MessageID, Failure those with empty MessageID, CanonicalIDs those with both
MessageID and RegistrationID non-empty; and MulticastID is that of the last
transport response received. -/
theorem Send_aggregated_original_order
    (apiKey : String) (transport : Transport) (rng : Nat → Nat) (m : Message)
    (ids : List String) (retries : Int) (resp0 r : Response)
    (h1 : ¬ apiKey = "") (h2 : checkMessage (some m) = none)
    (h3 : m.RegistrationIDs = some ids)
    (h4 : transport 0 ids = some (Except.ok resp0))
    (h5 : ¬ resp0.Failure = 0) (h6 : 0 < retries)
    (h7 : (Send apiKey transport rng (some m) retries).result
      = some (Except.ok r)) :
    r.Results.length = ids.length ∧
    r.Results = ids.map (fun g =>
      (lookupLast (Send apiKey transport rng (some m) retries).recs g).getD
        zeroResult) ∧
    r.Success = List.countP (fun x => !(x.MessageID == "")) r.Results ∧
    r.Failure = List.countP (fun x => x.MessageID == "") r.Results ∧
    r.CanonicalIDs =
      List.countP (fun x => !(x.MessageID == "") && !(x.RegistrationID == ""))
        r.Results ∧
    ∃ lr, (Send apiKey transport rng (some m) retries).resps.getLast? = some lr ∧
      r.MulticastID = lr.MulticastID := by
  rw [Send_enters_loop apiKey transport rng m ids retries resp0 h1 h2 h3 h4 h5 h6]
    at h7 ⊢
  obtain ⟨ha, hb, hc, hd, he⟩ := sendLoop_ok_spec apiKey transport rng ids
    retries.toNat 0 m resp0 emptyLedger backoffInitialDelay 1 [] [] [] [resp0]
    _ r rfl (fun x => rfl) rfl h7
  exact ⟨by rw [ha]; simp, ha, hb, hc, hd, he⟩

/-- Witness for C2 on the concrete two-id scenario where "B" is retried once
and then succeeds with a canonical id. -/
theorem Send_aggregated_original_order_witness :
    wr2.Results.length = wids.length ∧
    wr2.Results = wids.map (fun g =>
      (lookupLast (Send "key" wtrA wrng (some wm) 1).recs g).getD zeroResult) ∧
    wr2.Success = List.countP (fun x => !(x.MessageID == "")) wr2.Results ∧
    wr2.Failure = List.countP (fun x => x.MessageID == "") wr2.Results ∧
    wr2.CanonicalIDs =
      List.countP (fun x => !(x.MessageID == "") && !(x.RegistrationID == ""))
        wr2.Results ∧
    ∃ lr, (Send "key" wtrA wrng (some wm) 1).resps.getLast? = some lr ∧
      wr2.MulticastID = lr.MulticastID :=
  Send_aggregated_original_order "key" wtrA wrng wm wids 1 wresp0 wr2
    (by decide) rfl rfl (by decide) (by decide) (by decide) (by decide)

/-- C7 counterexample: on a round that returns fewer results than ids sent,
the never-recorded id "B" ends up as the zero result, whose error
classification is the empty string — not an "unknown error" classification. -/
theorem Send_unknown_error_claim_counterexample :
    (Send "key" wtr7 wrng wmsg 1).result = some (Except.ok wr7) ∧
    lookupLast (Send "key" wtr7 wrng wmsg 1).recs "B" = none ∧
    wr7.Results = [⟨"mid", "", ""⟩, ⟨"", "", ""⟩] ∧
    (⟨"", "", ""⟩ : Result).Error = "" := by
  decide

/-- C7 (amended): every original identifier keeps its position in the final
Results list (same length, never omitted); an identifier whose outcome was
never recorded in the ledger is represented by the zero-value outcome
(empty message id, empty registration id, empty error string), which has an
empty MessageID and is therefore counted as a failure. -/
theorem Send_never_drops_recipient
    (apiKey : String) (transport : Transport) (rng : Nat → Nat) (m : Message)
    (ids : List String) (retries : Int) (resp0 r : Response)
    (h1 : ¬ apiKey = "") (h2 : checkMessage (some m) = none)
    (h3 : m.RegistrationIDs = some ids)
    (h4 : transport 0 ids = some (Except.ok resp0))
    (h5 : ¬ resp0.Failure = 0) (h6 : 0 < retries)
    (h7 : (Send apiKey transport rng (some m) retries).result
      = some (Except.ok r)) :
    r.Results.length = ids.length ∧
    (∀ (i : Nat) (g : String), ids[i]? = some g →
      lookupLast (Send apiKey transport rng (some m) retries).recs g = none →
      r.Results[i]? = some zeroResult) ∧
    zeroResult.MessageID = "" ∧
    r.Failure = List.countP (fun x => x.MessageID == "") r.Results := by
  rw [Send_enters_loop apiKey transport rng m ids retries resp0 h1 h2 h3 h4 h5 h6]
    at h7 ⊢
  obtain ⟨ha, hb, hc, hd, he⟩ := sendLoop_ok_spec apiKey transport rng ids
    retries.toNat 0 m resp0 emptyLedger backoffInitialDelay 1 [] [] [] [resp0]
    _ r rfl (fun x => rfl) rfl h7
  refine ⟨by rw [ha]; simp, ?_, rfl, hc⟩
  intro i g hg hnone
  rw [ha, List.getElem?_map, hg]
  simp [hnone]

/-- Witness for the amended C7 on the concrete run where "B" is never
recorded. -/
theorem Send_never_drops_recipient_witness :
    wr7.Results.length = wids.length ∧
    (∀ (i : Nat) (g : String), wids[i]? = some g →
      lookupLast (Send "key" wtr7 wrng (some wm) 1).recs g = none →
      wr7.Results[i]? = some zeroResult) ∧
    zeroResult.MessageID = "" ∧
    wr7.Failure = List.countP (fun x => x.MessageID == "") wr7.Results :=
  Send_never_drops_recipient "key" wtr7 wrng wm wids 1 wresp7 wr7
    (by decide) rfl rfl (by decide) (by decide) (by decide) (by decide)

/-- C10: when `s.HTTP.Do` fails with a nil response, the deferred
`resp.Body.Close()` (registered before the error check) dereferences nil, so
`SendNoRetry` panics instead of returning the transport error, and `Send`
panics in turn: the error-return branches after the HTTP call never execute
for nil responses. -/
theorem SendNoRetry_nil_response_panics (apiKey : String) (msg : Option Message)
    (e : String) (retryAfterParse : String → Except String Int)
    (decodeBody : String → Except String Response)
    (h1 : ¬ apiKey = "") (h2 : checkMessage msg = none) :
    SendNoRetryFine apiKey msg none (some e) retryAfterParse decodeBody = none ∧
    (∀ (transport : Transport) (rng : Nat → Nat) (retries : Int), 0 ≤ retries →
      transport 0 (msgRegIDs msg) = none →
      (Send apiKey transport rng msg retries).result = none) := by
  constructor
  · simp [SendNoRetryFine, if_neg h1, h2, closeDefer]
  · intro transport rng retries hr htr
    have hneg : ¬ retries < 0 := by omega
    simp [Send, if_neg hneg, SendNoRetryRun, if_neg h1, h2, htr]

/-- Witness for C10 on a concrete network failure. -/
theorem SendNoRetry_nil_response_panics_witness :
    SendNoRetryFine "key" wmsg none (some "connection refused") wrap10 wdec10
        = none ∧
    (Send "key" wtrNil wrng wmsg 0).result = none :=
  ⟨(SendNoRetry_nil_response_panics "key" wmsg "connection refused" wrap10 wdec10
      (by decide) rfl).1,
    (SendNoRetry_nil_response_panics "key" wmsg "connection refused" wrap10 wdec10
      (by decide) rfl).2 wtrNil wrng 0 (by decide) rfl⟩

end Gcm
